import Mathlib

/-!
Verification of the rent-vs-buy calculator engine (`calculations.py`).

The Python functions are embedded shallowly:
* floats become exact rationals `ℚ`;
* Python exceptions (`ZeroDivisionError` from `/`, pandas `KeyError` on a
  missing column of an empty frame, `IndexError` from `.iloc` on an empty
  frame) become `Except CalcError` / `Option`;
* pandas DataFrames become lists of records, one structure per row shape.
-/

set_option maxRecDepth 10000

/-- Errors a run of the engine can raise.  The Python source defines no
error class of its own; these are the runtime exceptions its expressions
can produce. -/
inductive CalcError where
  | invalidInput
  | zeroDivision
  | keyError
deriving DecidableEq

/-- Embedding of `calculate_monthly_mortgage_payment(principal, annual_interest_rate, years)`.
`monthly_rate = annual_interest_rate / 12`; `num_payments = years * 12`;
zero monthly rate returns `principal / num_payments` (a `ZeroDivisionError`
when `num_payments = 0`); otherwise the annuity formula
`principal * (monthly_rate / (1 - (1 + monthly_rate) ^ (-num_payments)))`,
which in Python raises `ZeroDivisionError` when the base is zero with a
negative exponent or when the denominator is zero. -/
def calculate_monthly_mortgage_payment (principal annual_interest_rate : ℚ) (years : ℤ) :
    Except CalcError ℚ :=
  let monthly_rate := annual_interest_rate / 12
  let num_payments := years * 12
  if monthly_rate = 0 then
    if num_payments = 0 then Except.error CalcError.zeroDivision
    else Except.ok (principal / (num_payments : ℚ))
  else if 1 + monthly_rate = 0 ∧ 0 < num_payments then Except.error CalcError.zeroDivision
  else if 1 - (1 + monthly_rate) ^ (-num_payments) = 0 then Except.error CalcError.zeroDivision
  else Except.ok (principal * (monthly_rate / (1 - (1 + monthly_rate) ^ (-num_payments))))

/-- Embedding of `apply_rent_increase(initial_rent, rent_increase_rate, year)`. -/
def apply_rent_increase (initial_rent rent_increase_rate : ℚ) (year : ℕ) : ℚ :=
  initial_rent * (1 + rent_increase_rate) ^ (year - 1)

/-- Embedding of `apply_house_appreciation(initial_value, appreciation_rate, year)`. -/
def apply_house_appreciation (initial_value appreciation_rate : ℚ) (year : ℕ) : ℚ :=
  initial_value * (1 + appreciation_rate) ^ (year - 1)

/-- Embedding of `apply_inflation(base_cost, inflation_rate, year)`. -/
def apply_inflation (base_cost inflation_rate : ℚ) (year : ℕ) : ℚ :=
  base_cost * (1 + inflation_rate) ^ (year - 1)

/-- The `inputs["general"]` group. -/
structure GeneralInputs where
  inflation_rate : ℚ
  savings_interest_rate : ℚ
  analysis_years : ℕ
  house_appreciation_rate : ℚ
  rent_increase_rate : ℚ
deriving DecidableEq

/-- The `inputs["rent"]` group. -/
structure RentInputs where
  current_monthly_rent : ℚ
  annual_renters_insurance : ℚ
deriving DecidableEq

/-- The `inputs["buy"]` group.  The mortgage term is an `ℤ` because the UI
casts the widget value with `int(...)` and imposes no lower bound on it. -/
structure BuyInputs where
  cash_price : ℚ
  downpayment : ℚ
  closing_costs : ℚ
  mortgage_rate : ℚ
  mortgage_term_years : ℤ
  property_value_tax_rate_below_9200000 : ℚ
  property_value_tax_rate_above_9200000 : ℚ
  land_tax_rate : ℚ
  tax_authority_property_value : ℚ
  tax_authority_land_value : ℚ
  annual_revaluation_rate : ℚ
  base_insurance : ℚ
  base_maintenance : ℚ
  base_renovations : ℚ
  community_ownership_cost : ℚ
  monthly_car_lease : ℚ
  interest_deduction_rate : ℚ
deriving DecidableEq

/-- The `inputs["selling"]` group. -/
structure SellingInputs where
  agent_commission_rate : ℚ
  capital_gains_tax_rate : ℚ
deriving DecidableEq

/-- The whole `inputs` dictionary built by the UI layer. -/
structure InputBundle where
  general : GeneralInputs
  rent : RentInputs
  buy : BuyInputs
  selling : SellingInputs
deriving DecidableEq

/-- One row of the rent scenario DataFrame. -/
structure YearlyRentRecord where
  year : ℕ
  monthly_rent : ℚ
  annual_rent : ℚ
  renters_insurance : ℚ
  total_rent_cost : ℚ
deriving DecidableEq

/-- The dictionary appended for `year` inside `calculate_rent_scenario`'s loop. -/
def rentRecord (inputs : InputBundle) (year : ℕ) : YearlyRentRecord :=
  let monthly_rent_this_year :=
    apply_rent_increase inputs.rent.current_monthly_rent
      inputs.general.rent_increase_rate year
  let annual_rent := monthly_rent_this_year * 12
  { year := year
    monthly_rent := monthly_rent_this_year
    annual_rent := annual_rent
    renters_insurance := inputs.rent.annual_renters_insurance
    total_rent_cost := annual_rent + inputs.rent.annual_renters_insurance }

/-- Embedding of `calculate_rent_scenario(inputs)`: the loop
`for year in range(1, years + 1)` appending `rentRecord` rows. -/
def calculate_rent_scenario (inputs : InputBundle) : List YearlyRentRecord :=
  (List.range inputs.general.analysis_years).map (fun i => rentRecord inputs (i + 1))

/-- One row of the month-by-month amortization DataFrame. -/
structure MonthlyRecord where
  month : ℕ
  interest_paid : ℚ
  principal_paid : ℚ
  mortgage_balance : ℚ
deriving DecidableEq

/-- The month loop of `calculate_buy_scenario` (lines 103-115): `n` remaining
months, `m` the 1-based index of the next month, `balance` the running
mortgage balance. -/
def monthly_schedule_aux (annual_interest_rate monthly_payment : ℚ) :
    ℕ → ℕ → ℚ → List MonthlyRecord
  | 0, _, _ => []
  | n + 1, m, balance =>
    let monthly_interest := balance * (annual_interest_rate / 12)
    let monthly_principal := monthly_payment - monthly_interest
    let balance2 := max (balance - monthly_principal) 0
    { month := m
      interest_paid := monthly_interest
      principal_paid := monthly_principal
      mortgage_balance := balance2 } ::
      monthly_schedule_aux annual_interest_rate monthly_payment n (m + 1) balance2

/-- The complete monthly schedule: months `1..total_months` starting from the
full loan amount. -/
def monthly_schedule (annual_interest_rate monthly_payment loan_amount : ℚ)
    (total_months : ℕ) : List MonthlyRecord :=
  monthly_schedule_aux annual_interest_rate monthly_payment total_months 1 loan_amount

/-- Embedding of `monthly_df["year"] = ((monthly_df["month"] - 1) // 12) + 1`. -/
def month_year (m : ℕ) : ℕ := (m - 1) / 12 + 1

/-- Embedding of `year_df = monthly_df[monthly_df["year"] == year]`. -/
def year_months (monthly : List MonthlyRecord) (year : ℕ) : List MonthlyRecord :=
  monthly.filter (fun r => month_year r.month == year)

/-- The property value tax computation (lines 143-151): a 20% taxable-value
haircut, then the two-bracket schedule around 9,200,000. -/
def property_value_tax_calc (tax_authority_property_value below_rate above_rate : ℚ) : ℚ :=
  let taxable_value := tax_authority_property_value * (8 / 10)
  if taxable_value ≤ 9200000 then taxable_value * below_rate
  else 9200000 * below_rate + (taxable_value - 9200000) * above_rate

/-- One row of the buy scenario DataFrame. -/
structure YearlyBuyRecord where
  year : ℕ
  interest_paid : ℚ
  principal_paid : ℚ
  property_value_tax : ℚ
  land_tax : ℚ
  insurance : ℚ
  maintenance : ℚ
  renovations : ℚ
  community_ownership_cost : ℚ
  car_lease : ℚ
  total_outflow : ℚ
  mortgage_balance_end : ℚ
  house_value_start : ℚ
  house_value_end : ℚ
  net_equity_end : ℚ
deriving DecidableEq

/-- The body of the year loop of `calculate_buy_scenario` (lines 122-199):
the record appended for `year` given the running state (house value at the
start of the year and the current tax-authority valuations). -/
def buy_year_record (inputs : InputBundle) (monthly : List MonthlyRecord) (year : ℕ)
    (house_value_start_year tax_authority_property_value tax_authority_land_value : ℚ) :
    YearlyBuyRecord :=
  let year_df := year_months monthly year
  let interest_paid_this_year :=
    match year_df.getLast? with
    | none => 0
    | some _ => (year_df.map (fun r => r.interest_paid)).sum
  let principal_paid_this_year :=
    match year_df.getLast? with
    | none => 0
    | some _ => (year_df.map (fun r => r.principal_paid)).sum
  let mortgage_balance_end :=
    match year_df.getLast? with
    | none => 0
    | some r => r.mortgage_balance
  let house_value_end_year := house_value_start_year * (1 + inputs.general.house_appreciation_rate)
  let property_value_tax_this_year :=
    property_value_tax_calc tax_authority_property_value
      inputs.buy.property_value_tax_rate_below_9200000
      inputs.buy.property_value_tax_rate_above_9200000
  let taxable_land_value := tax_authority_land_value * (1 - 20 / 100)
  let land_tax_this_year := taxable_land_value * inputs.buy.land_tax_rate
  let insurance_this_year :=
    apply_inflation inputs.buy.base_insurance inputs.general.inflation_rate year
  let maintenance_this_year :=
    apply_inflation inputs.buy.base_maintenance inputs.general.inflation_rate year
  let renovations_this_year :=
    apply_inflation inputs.buy.base_renovations inputs.general.inflation_rate year
  let community_ownership_cost_this_year :=
    apply_inflation (inputs.buy.community_ownership_cost * 12) inputs.general.inflation_rate year
  let car_lease_this_year :=
    apply_inflation (inputs.buy.monthly_car_lease * 12) inputs.general.inflation_rate year
  let net_interest_paid_this_year :=
    interest_paid_this_year * (1 - inputs.buy.interest_deduction_rate)
  let total_annual_outflow :=
    net_interest_paid_this_year
      + principal_paid_this_year
      + property_value_tax_this_year
      + land_tax_this_year
      + insurance_this_year
      + maintenance_this_year
      + renovations_this_year
      + community_ownership_cost_this_year
      + car_lease_this_year
  { year := year
    interest_paid := net_interest_paid_this_year
    principal_paid := principal_paid_this_year
    property_value_tax := property_value_tax_this_year
    land_tax := land_tax_this_year
    insurance := insurance_this_year
    maintenance := maintenance_this_year
    renovations := renovations_this_year
    community_ownership_cost := community_ownership_cost_this_year
    car_lease := car_lease_this_year
    total_outflow := total_annual_outflow
    mortgage_balance_end := mortgage_balance_end
    house_value_start := house_value_start_year
    house_value_end := house_value_end_year
    net_equity_end := house_value_end_year - mortgage_balance_end }

/-- The year loop of `calculate_buy_scenario`: `n` remaining years, `year`
the next 1-based year, threading the ending house value and the revalued
tax-authority valuations across iterations. -/
def buy_years_aux (inputs : InputBundle) (monthly : List MonthlyRecord) :
    ℕ → ℕ → ℚ → ℚ → ℚ → List YearlyBuyRecord
  | 0, _, _, _, _ => []
  | n + 1, year, house_value_start_year, tax_prop_value, tax_land_value =>
    let r := buy_year_record inputs monthly year house_value_start_year
      tax_prop_value tax_land_value
    r :: buy_years_aux inputs monthly n (year + 1) r.house_value_end
      (tax_prop_value * (1 + inputs.buy.annual_revaluation_rate))
      (tax_land_value * (1 + inputs.buy.annual_revaluation_rate))

/-- Embedding of `calculate_buy_scenario(inputs)`.  The monthly payment
computation can raise; an empty monthly DataFrame (negative term) makes the
column access `monthly_df["month"]` raise a pandas `KeyError` before the
year loop runs. -/
def calculate_buy_scenario (inputs : InputBundle) : Except CalcError (List YearlyBuyRecord) :=
  let loan_amount := inputs.buy.cash_price - inputs.buy.downpayment
  match calculate_monthly_mortgage_payment loan_amount inputs.buy.mortgage_rate
      inputs.buy.mortgage_term_years with
  | Except.error e => Except.error e
  | Except.ok monthly_payment =>
    let total_months := (inputs.buy.mortgage_term_years * 12).toNat
    let monthly := monthly_schedule inputs.buy.mortgage_rate monthly_payment
      loan_amount total_months
    match monthly with
    | [] => Except.error CalcError.keyError
    | _ :: _ =>
      Except.ok (buy_years_aux inputs monthly inputs.general.analysis_years 1
        inputs.buy.cash_price
        inputs.buy.tax_authority_property_value
        inputs.buy.tax_authority_land_value)

/-- One row of the rent+invest DataFrame.  The `final_rent_net_worth` column
is added after the loop; while a row is being built it does not exist yet,
modelled by the placeholder value `0`. -/
structure YearlyInvestmentRecord where
  year : ℕ
  rent_outflow : ℚ
  buy_outflow : ℚ
  difference : ℚ
  investment_start : ℚ
  investment_end : ℚ
  final_rent_net_worth : ℚ
deriving DecidableEq

/-- The `merged` frame: positional alignment of the rent and buy frames into
`(year, rent_outflow, buy_outflow)` triples. -/
def merged_frame (rent_df : List YearlyRentRecord) (buy_df : List YearlyBuyRecord) :
    List (ℕ × ℚ × ℚ) :=
  (rent_df.zip buy_df).map (fun p => (p.1.year, p.1.total_rent_cost, p.2.total_outflow))

/-- Embedding of `merged[merged["year"] == year].iloc[0]`: the first row of the merged
frame carrying the given year, `none` when there is none (pandas raises
`IndexError` there). -/
def lookup_year (merged : List (ℕ × ℚ × ℚ)) (year : ℕ) : Option (ℚ × ℚ) :=
  (merged.find? (fun t => t.1 == year)).map (fun t => t.2)

/-- The year loop of `calculate_rent_investment_scenario`: `n` remaining
years, `year` the next 1-based year, `investment_balance` the running
balance.  Returns `none` if any year's row lookup fails. -/
def rent_invest_aux (savings_rate : ℚ) (merged : List (ℕ × ℚ × ℚ)) :
    ℕ → ℕ → ℚ → Option (List YearlyInvestmentRecord)
  | 0, _, _ => some []
  | n + 1, year, investment_balance =>
    match lookup_year merged year with
    | none => none
    | some (rent_cost, buy_cost) =>
      let difference := buy_cost - rent_cost
      let investment_start := investment_balance
      let investment_after_diff := investment_start + difference
      let investment_end := investment_after_diff * (1 + savings_rate)
      (rent_invest_aux savings_rate merged n (year + 1) investment_end).map
        (fun rest =>
          { year := year
            rent_outflow := rent_cost
            buy_outflow := buy_cost
            difference := difference
            investment_start := investment_start
            investment_end := investment_end
            final_rent_net_worth := 0 } :: rest)

/-- Embedding of `calculate_rent_investment_scenario(inputs, rent_df, buy_df)`.
After the loop, `df["final_rent_net_worth"] = df["investment_end"].iloc[-1]`
replicates the last ending balance onto every row (`IndexError`, hence
`none`, on an empty frame). -/
def calculate_rent_investment_scenario (inputs : InputBundle)
    (rent_df : List YearlyRentRecord) (buy_df : List YearlyBuyRecord) :
    Option (List YearlyInvestmentRecord) :=
  let merged := merged_frame rent_df buy_df
  let initial_investment := inputs.buy.downpayment + inputs.buy.closing_costs
  match rent_invest_aux inputs.general.savings_interest_rate merged
      inputs.general.analysis_years 1 initial_investment with
  | none => none
  | some rows =>
    match rows.getLast? with
    | none => none
    | some last =>
      some (rows.map (fun r =>
        { r with final_rent_net_worth := last.investment_end }))

/-- The summary dictionary returned by `compare_scenarios`. -/
structure ComparisonSummary where
  total_rent_outflow : ℚ
  final_rent_net_worth : ℚ
  total_buy_outflow : ℚ
  final_net_equity_buying : ℚ
  difference_in_net_worth : ℚ
deriving DecidableEq

/-- Embedding of `compare_scenarios(rent_df, buy_df, rent_invest_df, inputs)`.
The two `.iloc` accesses raise `IndexError` (here `none`) when the frames
lack the required rows. -/
def compare_scenarios (rent_df : List YearlyRentRecord) (buy_df : List YearlyBuyRecord)
    (rent_invest_df : List YearlyInvestmentRecord) (inputs : InputBundle) :
    Option ComparisonSummary :=
  let total_rent_outflow := (rent_df.map (fun r => r.total_rent_cost)).sum
  match rent_invest_df.getLast? with
  | none => none
  | some last_invest =>
    let final_rent_net_worth := last_invest.final_rent_net_worth
    let total_buy_outflow := (buy_df.map (fun r => r.total_outflow)).sum
    let last_year := inputs.general.analysis_years
    match (buy_df.filter (fun r => r.year == last_year)).head? with
    | none => none
    | some final_buy_row =>
      let final_home_value := final_buy_row.house_value_end
      let final_mortgage_balance := final_buy_row.mortgage_balance_end
      let raw_equity := final_home_value - final_mortgage_balance
      let commission_rate := inputs.selling.agent_commission_rate
      let capital_gains_rate := inputs.selling.capital_gains_tax_rate
      let agent_commission := final_home_value * commission_rate
      let purchase_price := inputs.buy.cash_price
      let capital_gains := max (final_home_value - purchase_price) 0
      let cgt := capital_gains * capital_gains_rate
      let final_net_equity_buying := raw_equity - agent_commission - cgt
      some { total_rent_outflow := total_rent_outflow
             final_rent_net_worth := final_rent_net_worth
             total_buy_outflow := total_buy_outflow
             final_net_equity_buying := final_net_equity_buying
             difference_in_net_worth := final_net_equity_buying - final_rent_net_worth }

/-- The running mortgage balance after `i` months, starting from `b`. -/
def sched_bal (annual_interest_rate monthly_payment b : ℚ) : ℕ → ℚ
  | 0 => b
  | i + 1 =>
    let prev := sched_bal annual_interest_rate monthly_payment b i
    max (prev - (monthly_payment - prev * (annual_interest_rate / 12))) 0

/-- The investment balance after `k` years, starting from `b`, when year
`k+1` contributes the `(rent, buy)` outflow pair `f k`. -/
def invest_bal (savings_rate : ℚ) (f : ℕ → ℚ × ℚ) (b : ℚ) : ℕ → ℚ
  | 0 => b
  | k + 1 => (invest_bal savings_rate f b k + ((f k).2 - (f k).1)) * (1 + savings_rate)

/-- A small concrete input bundle: two analysis years, a one-year mortgage
term, a fully cash-financed purchase (zero loan) and all rates zero. -/
def testBundle : InputBundle :=
  { general := { inflation_rate := 0, savings_interest_rate := 0, analysis_years := 2,
                 house_appreciation_rate := 0, rent_increase_rate := 0 }
    rent := { current_monthly_rent := 1000, annual_renters_insurance := 0 }
    buy := { cash_price := 100000, downpayment := 100000, closing_costs := 0,
             mortgage_rate := 0, mortgage_term_years := 1,
             property_value_tax_rate_below_9200000 := 0,
             property_value_tax_rate_above_9200000 := 0,
             land_tax_rate := 0,
             tax_authority_property_value := 100000,
             tax_authority_land_value := 50000,
             annual_revaluation_rate := 0,
             base_insurance := 0, base_maintenance := 0, base_renovations := 0,
             community_ownership_cost := 0, monthly_car_lease := 0,
             interest_deduction_rate := 0 }
    selling := { agent_commission_rate := 0, capital_gains_tax_rate := 0 } }

/-- Variant of `testBundle` with a zero mortgage term and a nonzero rate. -/
def testBundleTermZero : InputBundle :=
  { testBundle with
    buy := { testBundle.buy with
             mortgage_term_years := 0
             mortgage_rate := 5 / 100 } }

/-- Variant of `testBundle` with different buy and selling parameters but the same
rent-relevant fields. -/
def testBundleAltBuy : InputBundle :=
  { testBundle with
    buy := { testBundle.buy with
             cash_price := 123456
             mortgage_rate := 7 / 100 }
    selling := { agent_commission_rate := 3 / 100, capital_gains_tax_rate := 1 / 10 } }

/-- Variant of `testBundle` restricted to a single analysis year. -/
def bundleOne : InputBundle :=
  { testBundle with
    general := { testBundle.general with
                 analysis_years := 1 } }

/-- A hand-built rent row for year 1. -/
def wRentRow : YearlyRentRecord :=
  { year := 1, monthly_rent := 1000, annual_rent := 12000,
    renters_insurance := 0, total_rent_cost := 12000 }

/-- A hand-built buy row for year 1. -/
def wBuyRow : YearlyBuyRecord :=
  { year := 1, interest_paid := 0, principal_paid := 0, property_value_tax := 0,
    land_tax := 0, insurance := 0, maintenance := 0, renovations := 0,
    community_ownership_cost := 0, car_lease := 0, total_outflow := 500,
    mortgage_balance_end := 0, house_value_start := 100000, house_value_end := 100000,
    net_equity_end := 100000 }

/-- A hand-built rent+invest row for year 1. -/
def wInvestRow : YearlyInvestmentRecord :=
  { year := 1, rent_outflow := 12000, buy_outflow := 500, difference := -11500,
    investment_start := 100000, investment_end := 88500, final_rent_net_worth := 88500 }

/-! ### Helper lemmas: rent scenario rows -/

theorem calculate_rent_scenario_length (inputs : InputBundle) :
    (calculate_rent_scenario inputs).length = inputs.general.analysis_years := by
  simp [calculate_rent_scenario]

theorem calculate_rent_scenario_getElem? (inputs : InputBundle) (i : ℕ)
    (hi : i < inputs.general.analysis_years) :
    (calculate_rent_scenario inputs)[i]? = some (rentRecord inputs (i + 1)) := by
  simp [calculate_rent_scenario, List.getElem?_map, List.getElem?_range, hi]

/-! ### Helper lemmas: monthly amortization schedule -/

theorem sched_bal_shift (r p b : ℚ) (i : ℕ) :
    sched_bal r p (sched_bal r p b 1) i = sched_bal r p b (i + 1) := by
  induction i with
  | zero => rfl
  | succ n ih =>
    have h1 : sched_bal r p (sched_bal r p b 1) (n + 1) =
        max (sched_bal r p (sched_bal r p b 1) n
          - (p - sched_bal r p (sched_bal r p b 1) n * (r / 12))) 0 := rfl
    rw [h1, ih]
    rfl

theorem monthly_schedule_aux_length (r p : ℚ) (n : ℕ) :
    ∀ (m : ℕ) (b : ℚ), (monthly_schedule_aux r p n m b).length = n := by
  induction n with
  | zero => intro m b; rfl
  | succ k ih => intro m b; simp [monthly_schedule_aux, ih]

theorem monthly_schedule_aux_getElem? (r p : ℚ) (n : ℕ) :
    ∀ (m : ℕ) (b : ℚ) (i : ℕ), i < n →
    (monthly_schedule_aux r p n m b)[i]? =
      some { month := m + i
             interest_paid := sched_bal r p b i * (r / 12)
             principal_paid := p - sched_bal r p b i * (r / 12)
             mortgage_balance := sched_bal r p b (i + 1) } := by
  induction n with
  | zero => intro m b i hi; omega
  | succ k ih =>
    intro m b i hi
    match i with
    | 0 => simp [monthly_schedule_aux, sched_bal]
    | j + 1 =>
      have hj : j < k := Nat.lt_of_succ_lt_succ hi
      have step : (monthly_schedule_aux r p (k + 1) m b)[j + 1]? =
          (monthly_schedule_aux r p k (m + 1) (sched_bal r p b 1))[j]? := by
        simp [monthly_schedule_aux, sched_bal]
      rw [step, ih (m + 1) (sched_bal r p b 1) j hj]
      simp only [sched_bal_shift]
      have hm : m + 1 + j = m + (j + 1) := by omega
      rw [hm]

theorem monthly_schedule_length (r p loan : ℚ) (n : ℕ) :
    (monthly_schedule r p loan n).length = n :=
  monthly_schedule_aux_length r p n 1 loan

theorem monthly_schedule_getElem? (r p loan : ℚ) (n i : ℕ) (hi : i < n) :
    (monthly_schedule r p loan n)[i]? =
      some { month := 1 + i
             interest_paid := sched_bal r p loan i * (r / 12)
             principal_paid := p - sched_bal r p loan i * (r / 12)
             mortgage_balance := sched_bal r p loan (i + 1) } :=
  monthly_schedule_aux_getElem? r p n 1 loan i hi

/-! ### Helper lemmas: buy scenario rows -/

theorem buy_years_aux_length (inputs : InputBundle) (monthly : List MonthlyRecord) (n : ℕ) :
    ∀ (year : ℕ) (hvs tpv tlv : ℚ),
    (buy_years_aux inputs monthly n year hvs tpv tlv).length = n := by
  induction n with
  | zero => intro year hvs tpv tlv; rfl
  | succ k ih => intro year hvs tpv tlv; simp [buy_years_aux, ih]

theorem mul_pow_succ_shift (a b : ℚ) (j : ℕ) : (a * b) * b ^ j = a * b ^ (j + 1) := by
  rw [pow_succ]
  ring

theorem buy_years_aux_getElem? (inputs : InputBundle) (monthly : List MonthlyRecord) (n : ℕ) :
    ∀ (year : ℕ) (hvs tpv tlv : ℚ) (i : ℕ), i < n →
    (buy_years_aux inputs monthly n year hvs tpv tlv)[i]? =
      some (buy_year_record inputs monthly (year + i)
        (hvs * (1 + inputs.general.house_appreciation_rate) ^ i)
        (tpv * (1 + inputs.buy.annual_revaluation_rate) ^ i)
        (tlv * (1 + inputs.buy.annual_revaluation_rate) ^ i)) := by
  induction n with
  | zero => intro year hvs tpv tlv i hi; omega
  | succ k ih =>
    intro year hvs tpv tlv i hi
    match i with
    | 0 => simp [buy_years_aux]
    | j + 1 =>
      have hj : j < k := Nat.lt_of_succ_lt_succ hi
      have hve : (buy_year_record inputs monthly year hvs tpv tlv).house_value_end =
          hvs * (1 + inputs.general.house_appreciation_rate) := rfl
      have step : (buy_years_aux inputs monthly (k + 1) year hvs tpv tlv)[j + 1]? =
          (buy_years_aux inputs monthly k (year + 1)
            (hvs * (1 + inputs.general.house_appreciation_rate))
            (tpv * (1 + inputs.buy.annual_revaluation_rate))
            (tlv * (1 + inputs.buy.annual_revaluation_rate)))[j]? := by
        simp only [buy_years_aux, hve, List.getElem?_cons_succ]
      rw [step, ih (year + 1) _ _ _ j hj]
      simp only [mul_pow_succ_shift]
      have hy : year + 1 + j = year + (j + 1) := by omega
      rw [hy]

/-- The buy scenario rows, when the run succeeds: there are `analysis_years`
of them, and row `i` is the year-`i+1` record computed from the compounded
house value and the revalued tax valuations. -/
theorem calculate_buy_scenario_ok_getElem? (inputs : InputBundle)
    (buy_df : List YearlyBuyRecord)
    (hok : calculate_buy_scenario inputs = Except.ok buy_df) :
    buy_df.length = inputs.general.analysis_years ∧
    ∀ i, i < inputs.general.analysis_years →
      ∃ monthly : List MonthlyRecord,
        buy_df[i]? = some (buy_year_record inputs monthly (1 + i)
          (inputs.buy.cash_price * (1 + inputs.general.house_appreciation_rate) ^ i)
          (inputs.buy.tax_authority_property_value
            * (1 + inputs.buy.annual_revaluation_rate) ^ i)
          (inputs.buy.tax_authority_land_value
            * (1 + inputs.buy.annual_revaluation_rate) ^ i)) ∧
        monthly = monthly_schedule inputs.buy.mortgage_rate
          (match calculate_monthly_mortgage_payment
              (inputs.buy.cash_price - inputs.buy.downpayment)
              inputs.buy.mortgage_rate inputs.buy.mortgage_term_years with
            | Except.ok p => p
            | Except.error _ => 0)
          (inputs.buy.cash_price - inputs.buy.downpayment)
          (inputs.buy.mortgage_term_years * 12).toNat := by
  simp only [calculate_buy_scenario] at hok
  cases hpay : calculate_monthly_mortgage_payment
      (inputs.buy.cash_price - inputs.buy.downpayment)
      inputs.buy.mortgage_rate inputs.buy.mortgage_term_years with
  | error e => rw [hpay] at hok; exact absurd hok (by simp)
  | ok p =>
    rw [hpay] at hok
    simp only at hok
    cases hml : monthly_schedule inputs.buy.mortgage_rate p
        (inputs.buy.cash_price - inputs.buy.downpayment)
        (inputs.buy.mortgage_term_years * 12).toNat with
    | nil => rw [hml] at hok; exact absurd hok (by simp)
    | cons a tl =>
      rw [hml] at hok
      simp only [Except.ok.injEq] at hok
      subst hok
      constructor
      · exact buy_years_aux_length inputs (a :: tl) inputs.general.analysis_years 1
          inputs.buy.cash_price inputs.buy.tax_authority_property_value
          inputs.buy.tax_authority_land_value
      · intro i hi
        refine ⟨a :: tl, ?_, by rw [← hml]⟩
        exact buy_years_aux_getElem? inputs (a :: tl) inputs.general.analysis_years 1
          inputs.buy.cash_price inputs.buy.tax_authority_property_value
          inputs.buy.tax_authority_land_value i hi

/-! ### Helper lemmas: rent+invest rows -/

theorem invest_bal_shift (s : ℚ) (f : ℕ → ℚ × ℚ) (b : ℚ) (i : ℕ) :
    invest_bal s (fun k => f (k + 1)) ((b + ((f 0).2 - (f 0).1)) * (1 + s)) i =
      invest_bal s f b (i + 1) := by
  induction i with
  | zero => rfl
  | succ n ih =>
    have h1 : invest_bal s (fun k => f (k + 1)) ((b + ((f 0).2 - (f 0).1)) * (1 + s)) (n + 1) =
        (invest_bal s (fun k => f (k + 1)) ((b + ((f 0).2 - (f 0).1)) * (1 + s)) n
          + ((f (n + 1)).2 - (f (n + 1)).1)) * (1 + s) := rfl
    rw [h1, ih]
    rfl

theorem rent_invest_aux_spec (s : ℚ) (merged : List (ℕ × ℚ × ℚ)) (n : ℕ) :
    ∀ (year : ℕ) (b : ℚ) (f : ℕ → ℚ × ℚ),
    (∀ k, k < n → lookup_year merged (year + k) = some (f k)) →
    ∃ l, rent_invest_aux s merged n year b = some l ∧ l.length = n ∧
      ∀ i, i < n → l[i]? = some
        { year := year + i
          rent_outflow := (f i).1
          buy_outflow := (f i).2
          difference := (f i).2 - (f i).1
          investment_start := invest_bal s f b i
          investment_end := invest_bal s f b (i + 1)
          final_rent_net_worth := 0 } := by
  induction n with
  | zero => intro year b f _; exact ⟨[], rfl, rfl, fun i hi => absurd hi (by omega)⟩
  | succ m ih =>
    intro year b f hf
    have h0 : lookup_year merged year = some (f 0) := by
      have := hf 0 (by omega)
      simpa using this
    obtain ⟨tl, htl, hlen, hget⟩ := ih (year + 1) ((b + ((f 0).2 - (f 0).1)) * (1 + s))
      (fun k => f (k + 1))
      (by
        intro k hk
        have := hf (k + 1) (by omega)
        have harr : year + 1 + k = year + (k + 1) := by omega
        rw [harr]
        exact this)
    refine ⟨{ year := year
              rent_outflow := (f 0).1
              buy_outflow := (f 0).2
              difference := (f 0).2 - (f 0).1
              investment_start := b
              investment_end := (b + ((f 0).2 - (f 0).1)) * (1 + s)
              final_rent_net_worth := 0 } :: tl, ?_, ?_, ?_⟩
    · show rent_invest_aux s merged (m + 1) year b = _
      rw [rent_invest_aux, h0]
      exact congrArg (Option.map _) htl
    · simp [hlen]
    · intro i hi
      match i with
      | 0 => simp [invest_bal]
      | j + 1 =>
        have hj : j < m := Nat.lt_of_succ_lt_succ hi
        have := hget j hj
        simp only [List.getElem?_cons_succ]
        rw [this, invest_bal_shift, invest_bal_shift]
        have hy : year + 1 + j = year + (j + 1) := by omega
        rw [hy]

/-! ### Helper lemmas: the merged frame and its year lookup -/

theorem merged_frame_getElem? (rent_df : List YearlyRentRecord)
    (buy_df : List YearlyBuyRecord) (i : ℕ) (r : YearlyRentRecord) (b : YearlyBuyRecord)
    (hr : rent_df[i]? = some r) (hb : buy_df[i]? = some b) :
    (merged_frame rent_df buy_df)[i]? = some (r.year, r.total_rent_cost, b.total_outflow) := by
  unfold merged_frame
  rw [List.getElem?_map]
  have : (rent_df.zip buy_df)[i]? = some (r, b) := by
    rw [List.getElem?_zip_eq_some]
    exact ⟨hr, hb⟩
  rw [this]
  rfl

theorem merged_frame_length (rent_df : List YearlyRentRecord)
    (buy_df : List YearlyBuyRecord) :
    (merged_frame rent_df buy_df).length = min rent_df.length buy_df.length := by
  simp [merged_frame]

/-- Running `find?` on a frame whose rows are labelled with consecutive years
starting at `s` returns the row at position `y - s`. -/
theorem find?_consecutive_years (l : List (ℕ × ℚ × ℚ)) :
    ∀ (s y : ℕ), (∀ i t, l[i]? = some t → t.1 = s + i) → s ≤ y → y < s + l.length →
    l.find? (fun t => t.1 == y) = l[y - s]? := by
  induction l with
  | nil => intro s y _ hsy hyl; simp at hyl; omega
  | cons a tl ih =>
    intro s y hlabel hsy hyl
    have ha : a.1 = s := by simpa using hlabel 0 a (by simp)
    by_cases hy : y = s
    · subst hy
      have hpred : (a.1 == y) = true := by simp [ha]
      simp [List.find?, hpred, ha]
    · have hsy' : s + 1 ≤ y := by omega
      have hpred : (a.1 == y) = false := by simp [ha]; omega
      have hrec : tl.find? (fun t => t.1 == y) = tl[y - (s + 1)]? := by
        refine ih (s + 1) y ?_ hsy' ?_
        · intro i t ht
          have := hlabel (i + 1) t (by simpa using ht)
          omega
        · simp at hyl ⊢; omega
      have hcons : (a :: tl).find? (fun t => t.1 == y) = tl.find? (fun t => t.1 == y) := by
        simp [List.find?, hpred]
      rw [hcons, hrec]
      have hidx : y - s = (y - (s + 1)) + 1 := by omega
      rw [hidx]
      simp

theorem getElem?_some_lt {α : Type} (l : List α) (i : ℕ) (a : α) (h : l[i]? = some a) :
    i < l.length := by
  by_contra hcon
  rw [List.getElem?_eq_none (by omega)] at h
  exact Option.noConfusion h

theorem lookup_year_merged (rent_df : List YearlyRentRecord) (buy_df : List YearlyBuyRecord)
    (N : ℕ) (hrlen : rent_df.length = N) (hblen : buy_df.length = N)
    (hyear : ∀ i r, rent_df[i]? = some r → r.year = i + 1)
    (k : ℕ) (hk : k < N) (r : YearlyRentRecord) (b : YearlyBuyRecord)
    (hr : rent_df[k]? = some r) (hb : buy_df[k]? = some b) :
    lookup_year (merged_frame rent_df buy_df) (1 + k) =
      some (r.total_rent_cost, b.total_outflow) := by
  have hmlen : (merged_frame rent_df buy_df).length = N := by
    rw [merged_frame_length, hrlen, hblen, Nat.min_self]
  have hlabel : ∀ i t, (merged_frame rent_df buy_df)[i]? = some t → t.1 = 1 + i := by
    intro i t ht
    have hiN : i < N := by
      have := getElem?_some_lt _ _ _ ht
      omega
    have hri : ∃ ri, rent_df[i]? = some ri := by
      have : i < rent_df.length := by omega
      exact ⟨rent_df[i], List.getElem?_eq_getElem this⟩
    have hbi : ∃ bi, buy_df[i]? = some bi := by
      have : i < buy_df.length := by omega
      exact ⟨buy_df[i], List.getElem?_eq_getElem this⟩
    obtain ⟨ri, hri⟩ := hri
    obtain ⟨bi, hbi⟩ := hbi
    have := merged_frame_getElem? rent_df buy_df i ri bi hri hbi
    rw [this] at ht
    have hy := hyear i ri hri
    cases ht
    show ri.year = 1 + i
    omega
  have hfind := find?_consecutive_years (merged_frame rent_df buy_df) 1 (1 + k)
    hlabel (by omega) (by omega)
  unfold lookup_year
  rw [hfind]
  have hidx : 1 + k - 1 = k := by omega
  rw [hidx, merged_frame_getElem? rent_df buy_df k r b hr hb]
  rfl

/-- C2: In the rent+invest simulation over frames of `analysisYears` rows
(the rent frame labelled with years `1..analysisYears` as the Rent Projector
produces), the run succeeds and: every row's ending balance satisfies
`investment_end = (investment_start + buyOutflow - rentOutflow) * (1 + savingsRate)`;
the first row starts from `downpayment + closingCosts`; each later row starts
from the previous row's ending balance; each row's outflows are the
corresponding rows' `total_rent_cost` / `total_outflow`; and the last row's
ending balance is replicated onto every row as `final_rent_net_worth`. -/
theorem C2_rent_invest_recurrence (inputs : InputBundle)
    (rent_df : List YearlyRentRecord) (buy_df : List YearlyBuyRecord)
    (hN : 1 ≤ inputs.general.analysis_years)
    (hrlen : rent_df.length = inputs.general.analysis_years)
    (hblen : buy_df.length = inputs.general.analysis_years)
    (hyear : ∀ i r, rent_df[i]? = some r → r.year = i + 1) :
    ∃ df, calculate_rent_investment_scenario inputs rent_df buy_df = some df ∧
      df.length = inputs.general.analysis_years ∧
      (∀ (i : ℕ) r, df[i]? = some r →
        r.investment_end =
          (r.investment_start + r.buy_outflow - r.rent_outflow)
            * (1 + inputs.general.savings_interest_rate) ∧
        (i = 0 → r.investment_start = inputs.buy.downpayment + inputs.buy.closing_costs) ∧
        (∀ rr, rent_df[i]? = some rr → r.rent_outflow = rr.total_rent_cost) ∧
        (∀ bb, buy_df[i]? = some bb → r.buy_outflow = bb.total_outflow)) ∧
      (∀ (i : ℕ) r r', df[i]? = some r → df[i + 1]? = some r' →
        r'.investment_start = r.investment_end) ∧
      (∀ last, df.getLast? = some last →
        ∀ (i : ℕ) r, df[i]? = some r → r.final_rent_net_worth = last.investment_end) := by
  set N := inputs.general.analysis_years with hNdef
  set s := inputs.general.savings_interest_rate with hsdef
  set init := inputs.buy.downpayment + inputs.buy.closing_costs with hinit
  set f : ℕ → ℚ × ℚ := fun k =>
    (((rent_df[k]?).map (fun r => r.total_rent_cost)).getD 0,
     ((buy_df[k]?).map (fun b => b.total_outflow)).getD 0) with hf
  have hlook : ∀ k, k < N → lookup_year (merged_frame rent_df buy_df) (1 + k) = some (f k) := by
    intro k hk
    have hr : ∃ r, rent_df[k]? = some r :=
      ⟨rent_df[k], List.getElem?_eq_getElem (by omega)⟩
    have hb : ∃ b, buy_df[k]? = some b :=
      ⟨buy_df[k], List.getElem?_eq_getElem (by omega)⟩
    obtain ⟨r, hr⟩ := hr
    obtain ⟨b, hb⟩ := hb
    rw [lookup_year_merged rent_df buy_df N hrlen hblen hyear k hk r b hr hb, hf]
    simp [hr, hb]
  obtain ⟨rows, hrows, hrowslen, hrowsget⟩ :=
    rent_invest_aux_spec s (merged_frame rent_df buy_df) N 1 init f hlook
  have hlast0 : rows.getLast? = some
      { year := 1 + (N - 1)
        rent_outflow := (f (N - 1)).1
        buy_outflow := (f (N - 1)).2
        difference := (f (N - 1)).2 - (f (N - 1)).1
        investment_start := invest_bal s f init (N - 1)
        investment_end := invest_bal s f init (N - 1 + 1)
        final_rent_net_worth := 0 } := by
    rw [List.getLast?_eq_getElem?, hrowslen]
    exact hrowsget (N - 1) (by omega)
  have hscen : calculate_rent_investment_scenario inputs rent_df buy_df =
      some (rows.map (fun r =>
        { r with final_rent_net_worth := invest_bal s f init (N - 1 + 1) })) := by
    simp only [calculate_rent_investment_scenario]
    rw [← hNdef, ← hsdef, ← hinit, hrows]
    simp only [hlast0]
  refine ⟨_, hscen, ?_, ?_, ?_, ?_⟩
  · simp [hrowslen]
  · intro i r hri
    rw [List.getElem?_map] at hri
    have hiN : i < N := by
      by_contra hcon
      have : rows[i]? = none := by
        rw [List.getElem?_eq_none]
        omega
      rw [this] at hri
      exact Option.noConfusion hri
    rw [hrowsget i hiN] at hri
    have hri2 := Option.some.inj hri
    subst hri2
    refine ⟨?_, ?_, ?_, ?_⟩
    · show invest_bal s f init (i + 1) =
        (invest_bal s f init i + (f i).2 - (f i).1) * (1 + s)
      have hstep : invest_bal s f init (i + 1) =
          (invest_bal s f init i + ((f i).2 - (f i).1)) * (1 + s) := rfl
      rw [hstep]
      ring
    · intro hi0
      subst hi0
      rfl
    · intro rr hrr
      simp [hf, hrr]
    · intro bb hbb
      simp [hf, hbb]
  · intro i r r' hri hri'
    rw [List.getElem?_map] at hri hri'
    have hiN' : i + 1 < N := by
      by_contra hcon
      have : rows[i + 1]? = none := by
        rw [List.getElem?_eq_none]
        omega
      rw [this] at hri'
      exact Option.noConfusion hri'
    have hiN : i < N := by omega
    rw [hrowsget i hiN] at hri
    rw [hrowsget (i + 1) hiN'] at hri'
    have hri2 := Option.some.inj hri
    have hri2' := Option.some.inj hri'
    subst hri2
    subst hri2'
    rfl
  · intro last hlastdf i r hri
    have hmaplast : (rows.map (fun r =>
        { r with final_rent_net_worth := invest_bal s f init (N - 1 + 1) })).getLast? =
        some { (({ year := 1 + (N - 1)
                   rent_outflow := (f (N - 1)).1
                   buy_outflow := (f (N - 1)).2
                   difference := (f (N - 1)).2 - (f (N - 1)).1
                   investment_start := invest_bal s f init (N - 1)
                   investment_end := invest_bal s f init (N - 1 + 1)
                   final_rent_net_worth := 0 } : YearlyInvestmentRecord)) with
                 final_rent_net_worth := invest_bal s f init (N - 1 + 1) } := by
      rw [List.getLast?_eq_getElem?, List.getElem?_map, List.length_map, hrowslen,
        hrowsget (N - 1) (by omega)]
      rfl
    rw [hmaplast] at hlastdf
    cases hlastdf
    rw [List.getElem?_map] at hri
    have hiN : i < N := by
      by_contra hcon
      have : rows[i]? = none := by
        rw [List.getElem?_eq_none]
        omega
      rw [this] at hri
      exact Option.noConfusion hri
    rw [hrowsget i hiN] at hri
    have hri2 := Option.some.inj hri
    subst hri2
    rfl

/-! ### Helper lemmas: the monthly payment function's error behaviour -/

theorem payment_never_invalidInput (principal annual_interest_rate : ℚ) (years : ℤ) :
    calculate_monthly_mortgage_payment principal annual_interest_rate years ≠
      Except.error CalcError.invalidInput := by
  simp only [calculate_monthly_mortgage_payment]
  split_ifs <;> simp

theorem payment_years_zero (principal annual_interest_rate : ℚ) :
    calculate_monthly_mortgage_payment principal annual_interest_rate 0 =
      Except.error CalcError.zeroDivision := by
  simp only [calculate_monthly_mortgage_payment]
  split_ifs with h1 h2 h3 h4 <;> first
    | rfl
    | (exfalso; revert h2; norm_num)
    | (exfalso; revert h4; norm_num)

/-- C3 counterexample: a negative principal with zero rate and a positive
term is accepted silently (the function returns a payment, it does not fail
with `InvalidInputError`). -/
theorem C3_counterexample :
    calculate_monthly_mortgage_payment (-100) 0 10 = Except.ok (-(5 / 6)) ∧
    (Except.ok (-(5 / 6) : ℚ) : Except CalcError ℚ) ≠
      Except.error CalcError.invalidInput ∧
    (-100 : ℚ) < 0 := by
  refine ⟨?_, by simp, by norm_num⟩
  unfold calculate_monthly_mortgage_payment
  norm_num

/-- C3 (amended): `calculate_monthly_mortgage_payment` performs no input
validation.  It never fails with `InvalidInputError` for any input; for
`years = 0` it fails with a division-by-zero error instead, and a negative
principal or negative term is accepted silently. -/
theorem C3_payment_error_behaviour (principal annual_interest_rate : ℚ) (years : ℤ) :
    calculate_monthly_mortgage_payment principal annual_interest_rate years ≠
      Except.error CalcError.invalidInput ∧
    (years = 0 → calculate_monthly_mortgage_payment principal annual_interest_rate years =
      Except.error CalcError.zeroDivision) := by
  refine ⟨payment_never_invalidInput principal annual_interest_rate years, ?_⟩
  intro h0
  rw [h0]
  exact payment_years_zero principal annual_interest_rate

theorem C3_witness :
    calculate_monthly_mortgage_payment 100 (5 / 100) 0 =
      Except.error CalcError.zeroDivision :=
  (C3_payment_error_behaviour 100 (5 / 100) 0).2 rfl

/-- C9: for every year `y` in `1..analysisYears` the rent record at position
`y - 1` has `monthlyRent = baseMonthlyRent * (1+rentIncreaseRate)^(y-1)`
(so year 1's rent is exactly the base rent), `annualRent = monthlyRent * 12`,
and `totalCost = annualRent + annualInsurance` with the insurance column the
uninflated constant. -/
theorem C9_rent_record_formulas (inputs : InputBundle) (y : ℕ)
    (h1 : 1 ≤ y) (h2 : y ≤ inputs.general.analysis_years) :
    ∃ r, (calculate_rent_scenario inputs)[y - 1]? = some r ∧
      r.year = y ∧
      r.monthly_rent = inputs.rent.current_monthly_rent *
        (1 + inputs.general.rent_increase_rate) ^ (y - 1) ∧
      r.annual_rent = r.monthly_rent * 12 ∧
      r.renters_insurance = inputs.rent.annual_renters_insurance ∧
      r.total_rent_cost = r.annual_rent + inputs.rent.annual_renters_insurance ∧
      (y = 1 → r.monthly_rent = inputs.rent.current_monthly_rent) := by
  have hlt : y - 1 < inputs.general.analysis_years := by omega
  have hy : y - 1 + 1 = y := by omega
  refine ⟨rentRecord inputs y, ?_, rfl, rfl, rfl, rfl, rfl, ?_⟩
  · rw [calculate_rent_scenario_getElem? inputs (y - 1) hlt, hy]
  · intro hy1
    subst hy1
    show inputs.rent.current_monthly_rent *
      (1 + inputs.general.rent_increase_rate) ^ (1 - 1) = _
    norm_num

theorem C9_witness :
    ∃ r, (calculate_rent_scenario
        { general := { inflation_rate := 0, savings_interest_rate := 0, analysis_years := 3,
                       house_appreciation_rate := 0, rent_increase_rate := 1 / 10 }
          rent := { current_monthly_rent := 1000, annual_renters_insurance := 50 }
          buy := { cash_price := 0, downpayment := 0, closing_costs := 0, mortgage_rate := 0,
                   mortgage_term_years := 1, property_value_tax_rate_below_9200000 := 0,
                   property_value_tax_rate_above_9200000 := 0, land_tax_rate := 0,
                   tax_authority_property_value := 0, tax_authority_land_value := 0,
                   annual_revaluation_rate := 0, base_insurance := 0, base_maintenance := 0,
                   base_renovations := 0, community_ownership_cost := 0, monthly_car_lease := 0,
                   interest_deduction_rate := 0 }
          selling := { agent_commission_rate := 0, capital_gains_tax_rate := 0 } })[2 - 1]? =
        some r ∧
      r.year = 2 ∧
      r.monthly_rent = 1000 * (1 + 1 / 10) ^ (2 - 1) ∧
      r.annual_rent = r.monthly_rent * 12 ∧
      r.renters_insurance = 50 ∧
      r.total_rent_cost = r.annual_rent + 50 ∧
      (2 = 1 → r.monthly_rent = 1000) :=
  C9_rent_record_formulas _ 2 (by norm_num) (by norm_num)

/-- C10: the rent projection reads only the analysis horizon, the rent
increase rate and the two rent parameters; two bundles agreeing on those
four fields produce identical rent series whatever their buy and selling
parameters are. -/
theorem C10_rent_noninterference (a b : InputBundle)
    (h1 : a.general.analysis_years = b.general.analysis_years)
    (h2 : a.general.rent_increase_rate = b.general.rent_increase_rate)
    (h3 : a.rent.current_monthly_rent = b.rent.current_monthly_rent)
    (h4 : a.rent.annual_renters_insurance = b.rent.annual_renters_insurance) :
    calculate_rent_scenario a = calculate_rent_scenario b := by
  unfold calculate_rent_scenario rentRecord apply_rent_increase
  rw [h1, h2, h3, h4]

/-- C8: every monthly record's new balance is the zero-clamped difference
`max (previousBalance - principalPaid) 0`, hence never negative, and the
recorded `principal_paid` always equals `payment - interest` (it is not
corrected when the clamp fires). -/
theorem C8_monthly_balance_clamp (annual_interest_rate monthly_payment loan_amount : ℚ)
    (n : ℕ) :
    (∀ (i : ℕ) rec,
      (monthly_schedule annual_interest_rate monthly_payment loan_amount n)[i]? = some rec →
      0 ≤ rec.mortgage_balance ∧
      rec.principal_paid = monthly_payment - rec.interest_paid) ∧
    (∀ rec,
      (monthly_schedule annual_interest_rate monthly_payment loan_amount n)[0]? = some rec →
      rec.mortgage_balance = max (loan_amount - rec.principal_paid) 0) ∧
    (∀ (i : ℕ) rec rec',
      (monthly_schedule annual_interest_rate monthly_payment loan_amount n)[i]? = some rec →
      (monthly_schedule annual_interest_rate monthly_payment loan_amount n)[i + 1]? = some rec' →
      rec'.mortgage_balance = max (rec.mortgage_balance - rec'.principal_paid) 0) := by
  refine ⟨?_, ?_, ?_⟩
  · intro i rec hrec
    have hi : i < n := by
      have := getElem?_some_lt _ _ _ hrec
      rw [monthly_schedule_length] at this
      exact this
    rw [monthly_schedule_getElem? annual_interest_rate monthly_payment loan_amount n i hi] at hrec
    have h2 := Option.some.inj hrec
    subst h2
    exact ⟨le_max_right _ _, rfl⟩
  · intro rec hrec
    have hi : 0 < n := by
      have := getElem?_some_lt _ _ _ hrec
      rw [monthly_schedule_length] at this
      exact this
    rw [monthly_schedule_getElem? annual_interest_rate monthly_payment loan_amount n 0 hi] at hrec
    have h2 := Option.some.inj hrec
    subst h2
    rfl
  · intro i rec rec' hrec hrec'
    have hi' : i + 1 < n := by
      have := getElem?_some_lt _ _ _ hrec'
      rw [monthly_schedule_length] at this
      exact this
    have hi : i < n := by omega
    rw [monthly_schedule_getElem? annual_interest_rate monthly_payment loan_amount n i hi] at hrec
    rw [monthly_schedule_getElem? annual_interest_rate monthly_payment loan_amount n
      (i + 1) hi'] at hrec'
    have h2 := Option.some.inj hrec
    have h2' := Option.some.inj hrec'
    subst h2
    subst h2'
    rfl

theorem C8_witness :
    (∀ (i : ℕ) rec, (monthly_schedule 0 1000 12000 12)[i]? = some rec →
      0 ≤ rec.mortgage_balance ∧ rec.principal_paid = 1000 - rec.interest_paid) ∧
    (∀ rec, (monthly_schedule 0 1000 12000 12)[0]? = some rec →
      rec.mortgage_balance = max (12000 - rec.principal_paid) 0) :=
  ⟨(C8_monthly_balance_clamp 0 1000 12000 12).1, (C8_monthly_balance_clamp 0 1000 12000 12).2.1⟩

/-- C5: the property value tax applies a 20% haircut to the tax-authority
valuation and a marginal two-bracket schedule with threshold 9,200,000: the
below-threshold rate on the whole taxable value when it is at most the
threshold, otherwise the below rate up to the threshold plus the above rate
on the excess, the two branch expressions agreeing exactly at the threshold
(no discontinuity); and every buy-scenario record's `property_value_tax` is
this function of that year's revalued tax-authority valuation. -/
theorem C5_property_tax_brackets :
    (∀ v below_rate above_rate : ℚ, v * (8 / 10) ≤ 9200000 →
      property_value_tax_calc v below_rate above_rate = v * (8 / 10) * below_rate) ∧
    (∀ v below_rate above_rate : ℚ, 9200000 < v * (8 / 10) →
      property_value_tax_calc v below_rate above_rate =
        9200000 * below_rate + (v * (8 / 10) - 9200000) * above_rate) ∧
    (∀ v below_rate above_rate : ℚ, v * (8 / 10) = 9200000 →
      v * (8 / 10) * below_rate =
        9200000 * below_rate + (v * (8 / 10) - 9200000) * above_rate) ∧
    (∀ (inputs : InputBundle) (buy_df : List YearlyBuyRecord),
      calculate_buy_scenario inputs = Except.ok buy_df →
      ∀ (i : ℕ) r, buy_df[i]? = some r →
        r.property_value_tax = property_value_tax_calc
          (inputs.buy.tax_authority_property_value
            * (1 + inputs.buy.annual_revaluation_rate) ^ i)
          inputs.buy.property_value_tax_rate_below_9200000
          inputs.buy.property_value_tax_rate_above_9200000) := by
  refine ⟨?_, ?_, ?_, ?_⟩
  · intro v below_rate above_rate h
    simp only [property_value_tax_calc]
    rw [if_pos h]
  · intro v below_rate above_rate h
    simp only [property_value_tax_calc]
    rw [if_neg (by exact not_le.mpr h)]
  · intro v below_rate above_rate h
    rw [h]
    ring
  · intro inputs buy_df hok i r hr
    obtain ⟨hlen, hget⟩ := calculate_buy_scenario_ok_getElem? inputs buy_df hok
    have hi : i < inputs.general.analysis_years := by
      have := getElem?_some_lt _ _ _ hr
      omega
    obtain ⟨monthly, hmi, _⟩ := hget i hi
    rw [hmi] at hr
    have h2 := Option.some.inj hr
    subst h2
    rfl

theorem C5_witness :
    property_value_tax_calc 11000000 (51 / 10000) (140 / 10000) =
      11000000 * (8 / 10) * (51 / 10000) ∧
    property_value_tax_calc 12500000 (51 / 10000) (140 / 10000) =
      9200000 * (51 / 10000) + (12500000 * (8 / 10) - 9200000) * (140 / 10000) ∧
    (11500000 : ℚ) * (8 / 10) * (51 / 10000) =
      9200000 * (51 / 10000) + (11500000 * (8 / 10) - 9200000) * (140 / 10000) :=
  ⟨C5_property_tax_brackets.1 11000000 (51 / 10000) (140 / 10000) (by norm_num),
   C5_property_tax_brackets.2.1 12500000 (51 / 10000) (140 / 10000) (by norm_num),
   C5_property_tax_brackets.2.2.1 11500000 (51 / 10000) (140 / 10000) (by norm_num)⟩

theorem sched_bal_zero_rate (p b : ℚ) (hp : 0 ≤ p) (i : ℕ) (h : p * i ≤ b) :
    sched_bal 0 p b i = b - p * i := by
  induction i with
  | zero => simp [sched_bal]
  | succ n ih =>
    have hn : p * n ≤ b := by
      have hcast : (n : ℚ) ≤ ((n + 1 : ℕ) : ℚ) := by push_cast; linarith
      calc p * n ≤ p * ((n + 1 : ℕ) : ℚ) := by
                  exact mul_le_mul_of_nonneg_left hcast hp
        _ ≤ b := h
    have hstep : sched_bal 0 p b (n + 1) =
        max (sched_bal 0 p b n - (p - sched_bal 0 p b n * (0 / 12))) 0 := rfl
    rw [hstep, ih hn]
    rw [max_eq_left]
    · push_cast
      ring
    · have : (0 : ℚ) / 12 = 0 := by norm_num
      rw [this, mul_zero, sub_zero]
      have hcast : ((n + 1 : ℕ) : ℚ) = (n : ℚ) + 1 := by push_cast; ring
      rw [hcast] at h
      linarith

/-- C7: the amortization schedule over `years` has exactly `years*12`
records with month indices `1..years*12`; with a zero annual rate the
monthly payment is `principal / (years*12)`; and in the concrete zero-rate
case (principal 120,000, 0% rate, 10 years) the payment is 1,000, every
monthly `principal_paid` equals 1,000 and the final record's balance is 0. -/
theorem C7_schedule_shape_and_zero_rate :
    (∀ (annual_interest_rate monthly_payment loan_amount : ℚ) (years : ℕ),
      (monthly_schedule annual_interest_rate monthly_payment loan_amount (years * 12)).length =
        years * 12 ∧
      ∀ (i : ℕ), i < years * 12 →
        ∃ rec, (monthly_schedule annual_interest_rate monthly_payment loan_amount
          (years * 12))[i]? = some rec ∧ rec.month = 1 + i) ∧
    (∀ (principal : ℚ) (years : ℤ), years ≠ 0 →
      calculate_monthly_mortgage_payment principal 0 years =
        Except.ok (principal / ((years * 12 : ℤ) : ℚ))) ∧
    calculate_monthly_mortgage_payment 120000 0 10 = Except.ok 1000 ∧
    (∀ (i : ℕ), i < 120 →
      ∃ rec, (monthly_schedule 0 1000 120000 120)[i]? = some rec ∧
        rec.principal_paid = 1000) ∧
    (∀ rec, (monthly_schedule 0 1000 120000 120).getLast? = some rec →
      rec.mortgage_balance = 0) := by
  refine ⟨?_, ?_, ?_, ?_, ?_⟩
  · intro r p loan years
    refine ⟨monthly_schedule_length r p loan (years * 12), ?_⟩
    intro i hi
    exact ⟨_, monthly_schedule_getElem? r p loan (years * 12) i hi, rfl⟩
  · intro principal years hy
    simp only [calculate_monthly_mortgage_payment]
    rw [if_pos (by norm_num)]
    rw [if_neg (by
      intro hcon
      apply hy
      omega)]
  · show calculate_monthly_mortgage_payment 120000 0 10 = Except.ok 1000
    simp only [calculate_monthly_mortgage_payment]
    norm_num
  · intro i hi
    refine ⟨_, monthly_schedule_getElem? 0 1000 120000 120 i hi, ?_⟩
    show (1000 : ℚ) - sched_bal 0 1000 120000 i * (0 / 12) = 1000
    norm_num
  · intro rec hrec
    rw [List.getLast?_eq_getElem?, monthly_schedule_length] at hrec
    rw [monthly_schedule_getElem? 0 1000 120000 120 (120 - 1) (by norm_num)] at hrec
    have h2 := Option.some.inj hrec
    subst h2
    show sched_bal 0 1000 120000 (120 - 1 + 1) = 0
    have : (120 : ℕ) - 1 + 1 = 120 := by norm_num
    rw [this]
    rw [sched_bal_zero_rate 1000 120000 (by norm_num) 120 (by norm_num)]
    norm_num

theorem C7_witness :
    (monthly_schedule (5 / 100) 500 10000 (2 * 12)).length = 2 * 12 ∧
    calculate_monthly_mortgage_payment 240 0 2 = Except.ok (240 / ((2 * 12 : ℤ) : ℚ)) ∧
    (∃ rec, (monthly_schedule 0 1000 120000 120)[7]? = some rec ∧
      rec.principal_paid = 1000) :=
  ⟨(C7_schedule_shape_and_zero_rate.1 (5 / 100) 500 10000 2).1,
   C7_schedule_shape_and_zero_rate.2.1 240 2 (by norm_num),
   C7_schedule_shape_and_zero_rate.2.2.2.1 7 (by norm_num)⟩

theorem monthly_schedule_aux_month_range (r p : ℚ) (n : ℕ) :
    ∀ (m : ℕ) (b : ℚ) a, a ∈ monthly_schedule_aux r p n m b →
      m ≤ a.month ∧ a.month < m + n := by
  induction n with
  | zero => intro m b a ha; exact absurd ha (by simp [monthly_schedule_aux])
  | succ k ih =>
    intro m b a ha
    rw [monthly_schedule_aux] at ha
    rcases List.mem_cons.mp ha with h | h
    · subst h
      simp only []
      omega
    · have := ih (m + 1) _ a h
      omega

theorem year_months_empty_beyond (r p loan : ℚ) (total_months year : ℕ)
    (h : ∀ m, 1 ≤ m → m < 1 + total_months → month_year m < year) :
    year_months (monthly_schedule r p loan total_months) year = [] := by
  rw [year_months, List.filter_eq_nil_iff]
  intro a ha
  have hrange := monthly_schedule_aux_month_range r p total_months 1 loan a ha
  have hy := h a.month hrange.1 hrange.2
  simp only [beq_iff_eq]
  omega

theorem buy_year_record_empty_months (inputs : InputBundle) (monthly : List MonthlyRecord)
    (year : ℕ) (hvs tpv tlv : ℚ) (hempty : year_months monthly year = []) :
    (buy_year_record inputs monthly year hvs tpv tlv).interest_paid = 0 ∧
    (buy_year_record inputs monthly year hvs tpv tlv).principal_paid = 0 ∧
    (buy_year_record inputs monthly year hvs tpv tlv).mortgage_balance_end = 0 := by
  simp only [buy_year_record, hempty]
  norm_num

/-- C6: when the analysis horizon outlasts the mortgage term, every
buy-scenario record for a year strictly beyond the term reports zero
interest paid, zero principal paid and a zero ending mortgage balance,
while the record itself (house value columns included) is still produced. -/
theorem C6_years_beyond_term (inputs : InputBundle) (buy_df : List YearlyBuyRecord)
    (hok : calculate_buy_scenario inputs = Except.ok buy_df)
    (hterm : 1 ≤ inputs.buy.mortgage_term_years)
    (year : ℕ) (hbeyond : inputs.buy.mortgage_term_years.toNat < year)
    (hyN : year ≤ inputs.general.analysis_years) :
    ∃ r, buy_df[year - 1]? = some r ∧ r.year = year ∧
      r.interest_paid = 0 ∧ r.principal_paid = 0 ∧ r.mortgage_balance_end = 0 ∧
      r.house_value_end = r.house_value_start * (1 + inputs.general.house_appreciation_rate) := by
  obtain ⟨hlen, hget⟩ := calculate_buy_scenario_ok_getElem? inputs buy_df hok
  have hi : year - 1 < inputs.general.analysis_years := by omega
  obtain ⟨monthly, hmi, hmsched⟩ := hget (year - 1) hi
  have hyr : 1 + (year - 1) = year := by omega
  rw [hyr] at hmi
  have htm : (inputs.buy.mortgage_term_years * 12).toNat =
      inputs.buy.mortgage_term_years.toNat * 12 := by
    rcases Int.eq_ofNat_of_zero_le (by omega : 0 ≤ inputs.buy.mortgage_term_years) with ⟨k, hk⟩
    rw [hk]
    rfl
  have hempty : year_months monthly year = [] := by
    rw [hmsched, htm]
    apply year_months_empty_beyond
    intro m hm1 hm2
    rw [month_year]
    have h12 : 0 < 12 := by norm_num
    have : (m - 1) / 12 < inputs.buy.mortgage_term_years.toNat := by
      apply Nat.div_lt_of_lt_mul
      omega
    omega
  obtain ⟨hzi, hzp, hzb⟩ := buy_year_record_empty_months inputs monthly year
    (inputs.buy.cash_price * (1 + inputs.general.house_appreciation_rate) ^ (year - 1))
    (inputs.buy.tax_authority_property_value
      * (1 + inputs.buy.annual_revaluation_rate) ^ (year - 1))
    (inputs.buy.tax_authority_land_value
      * (1 + inputs.buy.annual_revaluation_rate) ^ (year - 1)) hempty
  exact ⟨_, hmi, rfl, hzi, hzp, hzb, rfl⟩

/-- C4 (amended): for a non-positive mortgage term `calculate_buy_scenario`
does abort before any yearly record is produced, but not with
`InvalidInputError` (no such validation exists): a zero term dies on the
division by zero inside the payment formula and a negative term dies on the
pandas column access over the empty monthly frame. -/
theorem C4_nonpositive_term_aborts (inputs : InputBundle)
    (h : inputs.buy.mortgage_term_years ≤ 0) :
    ∃ e, calculate_buy_scenario inputs = Except.error e ∧ e ≠ CalcError.invalidInput := by
  cases hpay : calculate_monthly_mortgage_payment
      (inputs.buy.cash_price - inputs.buy.downpayment)
      inputs.buy.mortgage_rate inputs.buy.mortgage_term_years with
  | error e =>
    refine ⟨e, ?_, ?_⟩
    · simp only [calculate_buy_scenario]
      rw [hpay]
    · intro he
      subst he
      exact payment_never_invalidInput _ _ _ hpay
  | ok p =>
    have hy0 : inputs.buy.mortgage_term_years ≠ 0 := by
      intro h0
      rw [h0, payment_years_zero] at hpay
      exact Except.noConfusion hpay
    have htn : (inputs.buy.mortgage_term_years * 12).toNat = 0 := by
      rw [Int.toNat_eq_zero]
      omega
    refine ⟨CalcError.keyError, ?_, by simp⟩
    simp only [calculate_buy_scenario]
    rw [hpay, htn]
    rfl

/-- C1: the comparator takes the last analysis year's buy row, computes
`finalNetEquityBuying = (houseValueEnd - mortgageBalanceEnd)
- houseValueEnd * commissionRate - max (houseValueEnd - purchasePrice) 0
* capitalGainsRate` and `differenceInNetWorth = finalNetEquityBuying
- finalRentNetWorth`, so the sign of the difference decides the winner
(positive buying, negative renting, zero a tie). -/
theorem C1_comparator_sign_law (rent_df : List YearlyRentRecord)
    (buy_df : List YearlyBuyRecord) (rent_invest_df : List YearlyInvestmentRecord)
    (inputs : InputBundle)
    (last_invest : YearlyInvestmentRecord) (final_buy_row : YearlyBuyRecord)
    (hlast : rent_invest_df.getLast? = some last_invest)
    (hrow : (buy_df.filter
      (fun r => r.year == inputs.general.analysis_years)).head? = some final_buy_row) :
    ∃ s, compare_scenarios rent_df buy_df rent_invest_df inputs = some s ∧
      s.final_net_equity_buying =
        (final_buy_row.house_value_end - final_buy_row.mortgage_balance_end)
          - final_buy_row.house_value_end * inputs.selling.agent_commission_rate
          - max (final_buy_row.house_value_end - inputs.buy.cash_price) 0
              * inputs.selling.capital_gains_tax_rate ∧
      s.final_rent_net_worth = last_invest.final_rent_net_worth ∧
      s.difference_in_net_worth = s.final_net_equity_buying - s.final_rent_net_worth ∧
      (0 < s.difference_in_net_worth ↔
        s.final_rent_net_worth < s.final_net_equity_buying) := by
  have heq : compare_scenarios rent_df buy_df rent_invest_df inputs = some
      { total_rent_outflow := (rent_df.map (fun r => r.total_rent_cost)).sum
        final_rent_net_worth := last_invest.final_rent_net_worth
        total_buy_outflow := (buy_df.map (fun r => r.total_outflow)).sum
        final_net_equity_buying :=
          (final_buy_row.house_value_end - final_buy_row.mortgage_balance_end)
            - final_buy_row.house_value_end * inputs.selling.agent_commission_rate
            - max (final_buy_row.house_value_end - inputs.buy.cash_price) 0
                * inputs.selling.capital_gains_tax_rate
        difference_in_net_worth :=
          ((final_buy_row.house_value_end - final_buy_row.mortgage_balance_end)
            - final_buy_row.house_value_end * inputs.selling.agent_commission_rate
            - max (final_buy_row.house_value_end - inputs.buy.cash_price) 0
                * inputs.selling.capital_gains_tax_rate)
            - last_invest.final_rent_net_worth } := by
    simp only [compare_scenarios]
    rw [hlast, hrow]
  refine ⟨_, heq, rfl, rfl, rfl, ?_⟩
  exact sub_pos

theorem C1_witness :
    ∃ s, compare_scenarios [wRentRow] [wBuyRow] [wInvestRow] bundleOne = some s ∧
      s.final_net_equity_buying =
        (wBuyRow.house_value_end - wBuyRow.mortgage_balance_end)
          - wBuyRow.house_value_end * bundleOne.selling.agent_commission_rate
          - max (wBuyRow.house_value_end - bundleOne.buy.cash_price) 0
              * bundleOne.selling.capital_gains_tax_rate ∧
      s.final_rent_net_worth = wInvestRow.final_rent_net_worth ∧
      s.difference_in_net_worth = s.final_net_equity_buying - s.final_rent_net_worth ∧
      (0 < s.difference_in_net_worth ↔
        s.final_rent_net_worth < s.final_net_equity_buying) :=
  C1_comparator_sign_law [wRentRow] [wBuyRow] [wInvestRow] bundleOne wInvestRow wBuyRow
    rfl rfl

theorem C2_witness :
    ∃ df, calculate_rent_investment_scenario bundleOne [wRentRow] [wBuyRow] = some df ∧
      df.length = bundleOne.general.analysis_years ∧
      (∀ (i : ℕ) r, df[i]? = some r →
        r.investment_end =
          (r.investment_start + r.buy_outflow - r.rent_outflow)
            * (1 + bundleOne.general.savings_interest_rate) ∧
        (i = 0 → r.investment_start = bundleOne.buy.downpayment + bundleOne.buy.closing_costs) ∧
        (∀ rr, [wRentRow][i]? = some rr → r.rent_outflow = rr.total_rent_cost) ∧
        (∀ bb, [wBuyRow][i]? = some bb → r.buy_outflow = bb.total_outflow)) ∧
      (∀ (i : ℕ) r r', df[i]? = some r → df[i + 1]? = some r' →
        r'.investment_start = r.investment_end) ∧
      (∀ last, df.getLast? = some last →
        ∀ (i : ℕ) r, df[i]? = some r → r.final_rent_net_worth = last.investment_end) :=
  C2_rent_invest_recurrence bundleOne [wRentRow] [wBuyRow] (by decide) rfl rfl
    (by
      intro i r h
      match i with
      | 0 =>
        simp only [List.getElem?_cons_zero] at h
        cases Option.some.inj h
        rfl
      | n + 1 => simp at h)

/-- C4 counterexample: at a concrete bundle with a zero mortgage term the
run fails with the division-by-zero error, not with `InvalidInputError`. -/
theorem C4_counterexample :
    testBundleTermZero.buy.mortgage_term_years ≤ 0 ∧
    calculate_buy_scenario testBundleTermZero = Except.error CalcError.zeroDivision ∧
    CalcError.zeroDivision ≠ CalcError.invalidInput := by
  refine ⟨by decide, ?_, by decide⟩
  have hp : calculate_monthly_mortgage_payment
      (testBundleTermZero.buy.cash_price - testBundleTermZero.buy.downpayment)
      testBundleTermZero.buy.mortgage_rate testBundleTermZero.buy.mortgage_term_years =
      Except.error CalcError.zeroDivision := payment_years_zero _ _
  simp only [calculate_buy_scenario]
  rw [hp]

theorem C4_witness :
    ∃ e, calculate_buy_scenario testBundleTermZero = Except.error e ∧
      e ≠ CalcError.invalidInput :=
  C4_nonpositive_term_aborts testBundleTermZero (by decide)

theorem testBundle_buy_eval :
    calculate_buy_scenario testBundle = Except.ok
      (buy_years_aux testBundle
        (monthly_schedule testBundle.buy.mortgage_rate 0
          (testBundle.buy.cash_price - testBundle.buy.downpayment)
          (testBundle.buy.mortgage_term_years * 12).toNat)
        testBundle.general.analysis_years 1 testBundle.buy.cash_price
        testBundle.buy.tax_authority_property_value
        testBundle.buy.tax_authority_land_value) := by
  have hp : calculate_monthly_mortgage_payment
      (testBundle.buy.cash_price - testBundle.buy.downpayment)
      testBundle.buy.mortgage_rate testBundle.buy.mortgage_term_years = Except.ok 0 := by
    simp only [calculate_monthly_mortgage_payment, testBundle]
    norm_num
  simp only [calculate_buy_scenario]
  rw [hp]
  rfl

theorem C6_witness :
    ∃ r, (buy_years_aux testBundle
        (monthly_schedule testBundle.buy.mortgage_rate 0
          (testBundle.buy.cash_price - testBundle.buy.downpayment)
          (testBundle.buy.mortgage_term_years * 12).toNat)
        testBundle.general.analysis_years 1 testBundle.buy.cash_price
        testBundle.buy.tax_authority_property_value
        testBundle.buy.tax_authority_land_value)[2 - 1]? = some r ∧
      r.year = 2 ∧ r.interest_paid = 0 ∧ r.principal_paid = 0 ∧
      r.mortgage_balance_end = 0 ∧
      r.house_value_end = r.house_value_start *
        (1 + testBundle.general.house_appreciation_rate) :=
  C6_years_beyond_term testBundle _ testBundle_buy_eval (by decide) 2 (by decide) (by decide)

theorem C10_witness :
    calculate_rent_scenario testBundle = calculate_rent_scenario testBundleAltBuy :=
  C10_rent_noninterference testBundle testBundleAltBuy rfl rfl rfl rfl
